import Mathlib

/-!
Shallow embedding of the two command-line tools of the flashcards repository:

* `src/bin/lib/extract_pdf_text.py` — extracts all text from a PDF page by
  page, with a page-number banner before each page, and prints the result to
  standard output.
* `src/scripts/extract_figures_from_pdf.py` — rasterises every page of a PDF
  to an image file named `page_{i:03d}.{fmt}` in an output directory.

The embedding models PDF opening/parsing and page rendering as parameters
(`Option`/`Except` values): the tools' own control flow, string formatting,
filesystem effects and exit codes are translated from the Python source.
-/

/-- `'='*80` from `extract_pdf_text.py` lines 16 and 18. -/
def eq80 : String := String.mk (List.replicate 80 '=')

/-- The string appended for one page by the loop body of
`extract_text_from_pdf` (lines 16–19):
`f"\n{'='*80}\n" + f"PAGE {page_num}\n" + f"{'='*80}\n\n" + page.get_text()`. -/
def pageChunk (n : Nat) (t : String) : String :=
  "\n" ++ eq80 ++ "\n" ++ "PAGE " ++ Nat.repr n ++ "\n" ++ eq80 ++ "\n\n" ++ t

/-- Python `f"{i:03d}"`: the decimal representation of `i`, left-padded with
`'0'` to a minimum width of 3 characters (`extract_figures_from_pdf.py`
line 47). -/
def py03d (i : Nat) : String :=
  let s := Nat.repr i
  String.mk (List.replicate (3 - s.length) '0' ++ s.data)

/-- The filename `f"page_{i:03d}.{fmt}"` written for page `i`
(`extract_figures_from_pdf.py` line 47). -/
def pageFileName (i : Nat) (fmt : String) : String :=
  "page_" ++ py03d i ++ "." ++ fmt

example : py03d 1 = "001" := by decide
example : py03d 999 = "999" := by decide
example : py03d 1000 = "1000" := by decide
example : pageFileName 1 "png" = "page_001.png" := by rfl

/-! ## Text extraction tool (`src/bin/lib/extract_pdf_text.py`) -/

/-- Observable outcome of one run of the text tool: what was written to
standard output, what was written to the error stream, and the exit status. -/
structure ToolOutput where
  stdout : String
  stderr : String
  exitCode : Nat
deriving DecidableEq

/-- The accumulation loop of `extract_text_from_pdf` (lines 13–19): `text`
starts empty and the body appends `pageChunk page_num page_text` for each
page, with `page_num` counted from 1.  A page is modelled as `none` when its
`get_text()` call raises; the exception aborts the loop and the partial
accumulator is discarded. -/
def textLoop : List (Option String) → Nat → String → Option String
  | [], _, acc => some acc
  | none :: _, _, _ => none
  | some t :: rest, n, acc => textLoop rest (n + 1) (acc ++ pageChunk n t)

/-- `extract_text_from_pdf` (lines 9–25).  The document argument is `none`
when `pymupdf.open` raises.  Any exception — from opening or from a page —
lands in the `except` branch, which prints to the error stream and exits
with status 1; this is modelled by the `.error` result carrying the message
printed there (line 24). -/
def extract_text_from_pdf (doc : Option (List (Option String))) :
    Except String String :=
  match doc with
  | none => .error "Error extracting text from PDF: cannot open document"
  | some pages =>
    match textLoop pages 1 "" with
    | none => .error "Error extracting text from PDF: cannot read page"
    | some t => .ok t

/-- The `__main__` block (lines 27–34): with an argument count other than 2
(program name plus one positional), print the usage line to the error stream
and exit 1; otherwise run the extraction and `print` the result (which
appends a final newline). -/
def textToolMain (argv : List String) (doc : Option (List (Option String))) :
    ToolOutput :=
  if argv.length ≠ 2 then
    { stdout := "", stderr := "Usage: extract_pdf_text.py <pdf_path>\n", exitCode := 1 }
  else
    match extract_text_from_pdf doc with
    | .error msg => { stdout := "", stderr := msg ++ "\n", exitCode := 1 }
    | .ok t => { stdout := t ++ "\n", stderr := "", exitCode := 0 }

/-- The banner exactly as the specification words it: a line of 80 `=`
characters, a line reading `PAGE n`, another line of 80 `=` characters, then
a blank line. -/
def bannerClaimed (n : Nat) : String :=
  eq80 ++ "\n" ++ "PAGE " ++ Nat.repr n ++ "\n" ++ eq80 ++ "\n\n"

/-- The standard-output contents as the claim words it: the concatenation,
in page order, of one banner block per page followed by the page text,
numbering from `n`. -/
def claimedTextOutput : Nat → List String → String
  | _, [] => ""
  | n, t :: rest => bannerClaimed n ++ t ++ claimedTextOutput (n + 1) rest

/-- The amended output shape: each banner block is preceded by one extra
newline (the leading `\n` of the `f"\n{...}\n"` literal on line 16), and the
page texts follow as in the claim. -/
def amendedTextBody : Nat → List String → String
  | _, [] => ""
  | n, t :: rest => ("\n" ++ bannerClaimed n ++ t) ++ amendedTextBody (n + 1) rest

lemma pageChunk_eq_banner (n : Nat) (t : String) :
    pageChunk n t = "\n" ++ bannerClaimed n ++ t := by
  simp [pageChunk, bannerClaimed, String.append_assoc]

lemma textLoop_map_some (texts : List String) :
    ∀ n acc, textLoop (texts.map some) n acc = some (acc ++ amendedTextBody n texts) := by
  induction texts with
  | nil => intro n acc; simp [textLoop, amendedTextBody]
  | cons t rest ih =>
    intro n acc
    simp [textLoop, amendedTextBody, ih, pageChunk_eq_banner, String.append_assoc]

lemma textLoop_none_mem (pages : List (Option String)) :
    ∀ n acc, none ∈ pages → textLoop pages n acc = none := by
  induction pages with
  | nil => intro _ _ h; cases h
  | cons p rest ih =>
    intro n acc h
    match p with
    | none => rfl
    | some t =>
      have : none ∈ rest := by
        cases List.mem_cons.mp h with
        | inl he => cases he
        | inr hm => exact hm
      simp [textLoop, ih _ _ this]

set_option maxRecDepth 10000 in
/-- For indices below 1000, `py03d` yields exactly the three decimal digits. -/
theorem py03d_eq_digits : ∀ i < 1000, (py03d i).data =
    [Nat.digitChar (i / 100), Nat.digitChar (i / 10 % 10), Nat.digitChar (i % 10)] := by decide

/-! ### Claims about the text tool -/

/-- C1, counterexample: on a one-page document whose page text is empty, the
standard output is not the bare banner-plus-text concatenation the claim
describes — the code emits an extra newline before the banner (line 16) and
`print` appends a final newline (line 34). -/
theorem text_output_not_exact_claimed_concat :
    (textToolMain ["extract_pdf_text.py", "doc.pdf"] (some [some ""])).stdout ≠
      claimedTextOutput 1 [""] := by decide

/-- C1 (amended): for every successfully opened document, the text tool
writes to standard output exactly the concatenation, in page order, of one
banner block per page followed by that page's text — where each banner block
is preceded by one extra newline — with one final newline appended by
printing.  Page numbers are 1-based, strictly increasing with no gaps, and
the banner appears even for a page whose text is empty. -/
theorem text_output_is_banner_concat (argv : List String) (h : argv.length = 2)
    (texts : List String) :
    textToolMain argv (some (texts.map some)) =
      { stdout := amendedTextBody 1 texts ++ "\n", stderr := "", exitCode := 0 } := by
  simp [textToolMain, h, extract_text_from_pdf, textLoop_map_some]

/-- C1, witness: the amended theorem applied to a concrete two-page document
whose first page has empty text. -/
theorem text_output_is_banner_concat_witness :
    textToolMain ["extract_pdf_text.py", "notes.pdf"] (["", "hello"].map some |> some) =
      { stdout := amendedTextBody 1 ["", "hello"] ++ "\n", stderr := "", exitCode := 0 } :=
  text_output_is_banner_concat ["extract_pdf_text.py", "notes.pdf"] (by decide) ["", "hello"]

/-- C3: if the document cannot be opened, or any page fails to parse, the
text tool writes nothing to standard output, exits with status 1, and prints
a non-empty message on the error stream — extraction is all-or-nothing. -/
theorem text_tool_failure_all_or_nothing (argv : List String) (h : argv.length = 2)
    (doc : Option (List (Option String)))
    (hfail : doc = none ∨ ∃ pages, doc = some pages ∧ none ∈ pages) :
    (textToolMain argv doc).stdout = "" ∧ (textToolMain argv doc).exitCode = 1 ∧
      (textToolMain argv doc).stderr ≠ "" := by
  rcases hfail with rfl | ⟨pages, rfl, hmem⟩
  · have e : textToolMain argv none =
        { stdout := "", stderr := "Error extracting text from PDF: cannot open document" ++ "\n",
          exitCode := 1 } := by
      simp [textToolMain, h, extract_text_from_pdf]
    rw [e]; exact ⟨rfl, rfl, by decide⟩
  · have e : textToolMain argv (some pages) =
        { stdout := "", stderr := "Error extracting text from PDF: cannot read page" ++ "\n",
          exitCode := 1 } := by
      simp [textToolMain, h, extract_text_from_pdf, textLoop_none_mem pages 1 "" hmem]
    rw [e]; exact ⟨rfl, rfl, by decide⟩

/-- C3, witness: the failure theorem applied to a concrete unopenable
document. -/
theorem text_tool_failure_all_or_nothing_witness :
    (textToolMain ["extract_pdf_text.py", "broken.pdf"] none).stdout = "" ∧
      (textToolMain ["extract_pdf_text.py", "broken.pdf"] none).exitCode = 1 ∧
      (textToolMain ["extract_pdf_text.py", "broken.pdf"] none).stderr ≠ "" :=
  text_tool_failure_all_or_nothing ["extract_pdf_text.py", "broken.pdf"] (by decide) none
    (Or.inl rfl)

/-- C7: with an argument count other than exactly one positional argument,
the text tool exits with status 1, prints the usage line on the error
stream, and writes nothing to standard output — whatever the document would
have contained (no file I/O happens). -/
theorem text_tool_usage_error (argv : List String) (h : argv.length ≠ 2)
    (doc : Option (List (Option String))) :
    textToolMain argv doc =
      { stdout := "", stderr := "Usage: extract_pdf_text.py <pdf_path>\n", exitCode := 1 } := by
  simp [textToolMain, h]

/-- C7, witness: the usage-error theorem applied to an invocation with no
positional argument. -/
theorem text_tool_usage_error_witness :
    textToolMain ["extract_pdf_text.py"] (some [some "ignored"]) =
      { stdout := "", stderr := "Usage: extract_pdf_text.py <pdf_path>\n", exitCode := 1 } :=
  text_tool_usage_error ["extract_pdf_text.py"] (by decide) (some [some "ignored"])

/-- C10: on a valid document with zero pages the text tool succeeds with
exit status 0, and its standard output is just the final newline of printing
the empty extracted string — no banner block and no page text. -/
theorem text_tool_zero_pages (argv : List String) (h : argv.length = 2) :
    textToolMain argv (some []) = { stdout := "\n", stderr := "", exitCode := 0 } := by
  simp [textToolMain, h, extract_text_from_pdf, textLoop]

/-- C10, witness: the zero-page theorem applied to a concrete invocation. -/
theorem text_tool_zero_pages_witness :
    textToolMain ["extract_pdf_text.py", "empty.pdf"] (some []) =
      { stdout := "\n", stderr := "", exitCode := 0 } :=
  text_tool_zero_pages ["extract_pdf_text.py", "empty.pdf"] (by decide)

/-! ## Figure extraction tool (`src/scripts/extract_figures_from_pdf.py`)

The filesystem is modelled explicitly: a path is its list of components, a
directory set is a list of paths, and files are an association list from
paths to contents keyed by first occurrence.  Page bitmaps are opaque
strings produced by the (parameterised) `convert_from_path` call. -/

/-- A filesystem path, as its list of components. -/
abbrev FsPath := List String

/-- Filesystem state visible to the figure tool: the set of existing
directories and the files with their contents. -/
structure FS where
  dirs : List FsPath
  files : List (FsPath × String)
deriving DecidableEq

/-- Render a path the way the tool prints it. -/
def pathString (p : FsPath) : String := String.intercalate "/" p

/-- The proper ancestors of a path, shortest first: for `a/b/c` these are
`a` and `a/b`. -/
def parentsOf : FsPath → List FsPath
  | [] => []
  | [_] => []
  | x :: xs => [x] :: (parentsOf xs).map (x :: ·)

/-- Create one directory if absent (never an error): the behaviour of
`mkdir` for each missing ancestor when `parents=True`. -/
def insertDir (ds : List FsPath) (q : FsPath) : List FsPath :=
  if q ∈ ds then ds else q :: ds

/-- `Path.mkdir(parents, exist_ok)` from pathlib: ancestors are created as
needed; the path itself raises `FileExistsError` when it already exists and
`exist_ok` is false. -/
def pathMkdir (ds : List FsPath) (p : FsPath) (exist_ok : Bool) :
    Except String (List FsPath) :=
  let ds1 := (parentsOf p).foldl insertDir ds
  if p ∈ ds1 then
    if exist_ok then .ok ds1 else .error "FileExistsError"
  else .ok (p :: ds1)

/-- Write a file, replacing the first entry with the same path if present
and appending otherwise — `image.save` overwrites an existing file. -/
def upsertFile : List (FsPath × String) → FsPath → String → List (FsPath × String)
  | [], k, v => [(k, v)]
  | (k', v') :: rest, k, v =>
    if k' = k then (k, v) :: rest else (k', v') :: upsertFile rest k v

/-- Content of the file at `k`, by first occurrence. -/
def lookupFile : List (FsPath × String) → FsPath → Option String
  | [], _ => none
  | (k', v') :: rest, k => if k' = k then some v' else lookupFile rest k

/-- The saving loop of `extract_figures` (lines 46–49): for each image, with
1-based counter `i`, write `output_path / f"page_{i:03d}.{fmt}"` and print a
confirmation line.  Returns the final filesystem, the printed lines, and the
filenames written, in order. -/
def saveLoop (out : FsPath) (fmt : String) :
    FS → List String → Nat → FS × List String × List String
  | fs, [], _ => (fs, [], [])
  | fs, img :: rest, i =>
    let name := pageFileName i fmt
    let fs1 : FS := { fs with files := upsertFile fs.files (out ++ [name]) img }
    let r := saveLoop out fmt fs1 rest (i + 1)
    (r.1, ("✓ Saved: " ++ pathString (out ++ [name])) :: r.2.1, name :: r.2.2)

/-- The trailing guidance block (lines 52–58). -/
def nextStepsLines (outStr : String) : List String :=
  ["", "Next steps:",
   "1. Review extracted images in " ++ outStr,
   "2. Identify figures you want to use",
   "3. Crop and rename relevant figures (e.g., page_005.png → fig_1_5.png)",
   "4. Delete full-page images you don't need",
   "5. Reference figures in flashcards with relative paths:",
   "   ![Figure description](../public/figures/chapter_1/fig_1_5.png)"]

/-- `extract_figures` (lines 21–58): create the output directory with
`parents=True, exist_ok=True`, print the header, convert the PDF
(`render` is the outcome of `convert_from_path`; `.error` when it raises),
then save every page.  The `Option String` component is the exception, if
one escaped to the caller; printed lines up to that point are kept. -/
def extract_figuresRun (fs : FS) (pdf : String) (out : FsPath)
    (render : Except String (List String)) (dpi : Int) (fmt : String) :
    FS × List String × Option String :=
  match pathMkdir fs.dirs out true with
  | .error e => (fs, [], some e)
  | .ok dirs1 =>
    let fs1 : FS := { fs with dirs := dirs1 }
    let header := ["Extracting figures from: " ++ pdf,
                   "Output directory: " ++ pathString out,
                   "Resolution: " ++ toString dpi ++ " DPI", ""]
    match render with
    | .error e => (fs1, header, some e)
    | .ok images =>
      let r := saveLoop out fmt fs1 images 1
      (r.1, header ++ r.2.1 ++
        ["", "✓ Successfully extracted " ++ toString images.length ++ " pages"] ++
        nextStepsLines (pathString out), none)

/-- The `--fmt` choices of the argument parser (line 105). -/
def fmtChoices : List String := ["png", "jpg", "jpeg"]

/-- The argument parser (lines 62–110): `--dpi` defaults to 300, `--fmt`
defaults to `"png"` and must be one of `fmtChoices`; on an invalid choice
argparse prints usage to the error stream and exits the process with
status 2 before `main` runs. -/
def parseFigureArgs (dpiArg : Option Int) (fmtArg : Option String) :
    Except Nat (Int × String) :=
  let dpi := dpiArg.getD 300
  match fmtArg with
  | none => .ok (dpi, "png")
  | some f => if f ∈ fmtChoices then .ok (dpi, f) else .error 2

/-- Observable outcome of one run of the figure tool: lines printed to
standard output and to the error stream, the exit status, and the final
filesystem. -/
structure FigOutcome where
  stdoutLines : List String
  stderrLines : List String
  exitCode : Nat
  fs : FS
deriving DecidableEq

/-- `main` plus process exit (lines 61–130): parse arguments (argparse
exits 2 on an invalid `--fmt`), then check `os.path.exists` on the PDF and
print the not-found message — to standard output — returning 1; otherwise
run `extract_figures`, catching any exception into the stdout error block
(lines 121–126) with exit 1, and returning 0 on success. -/
def figureToolMain (fs : FS) (pdf : String) (out : FsPath)
    (dpiArg : Option Int) (fmtArg : Option String)
    (pdfExists : Bool) (render : Except String (List String)) : FigOutcome :=
  match parseFigureArgs dpiArg fmtArg with
  | .error code =>
    { stdoutLines := [],
      stderrLines := ["usage: extract_figures_from_pdf.py [-h] --pdf PDF --output OUTPUT [--dpi DPI] [--fmt fmt-choice]",
                      "extract_figures_from_pdf.py: error: argument --fmt: invalid choice"],
      exitCode := code, fs := fs }
  | .ok (dpi, fmt) =>
    if !pdfExists then
      { stdoutLines := ["Error: PDF file not found: " ++ pdf], stderrLines := [],
        exitCode := 1, fs := fs }
    else
      match extract_figuresRun fs pdf out render dpi fmt with
      | (fs1, lines, none) =>
        { stdoutLines := lines, stderrLines := [], exitCode := 0, fs := fs1 }
      | (fs1, lines, some e) =>
        { stdoutLines := lines ++
            ["", "Error: " ++ e, "",
             "Make sure you have installed dependencies:",
             "  pip install pdf2image pillow",
             "  brew install poppler  # macOS only"],
          stderrLines := [], exitCode := 1, fs := fs1 }

/-! ### Directory-creation lemmas -/

lemma mem_insertDir_self (ds : List FsPath) (q : FsPath) : q ∈ insertDir ds q := by
  unfold insertDir; split
  · assumption
  · exact List.mem_cons_self _ _

lemma mem_insertDir_of_mem (ds : List FsPath) (q r : FsPath) (h : r ∈ ds) :
    r ∈ insertDir ds q := by
  unfold insertDir; split
  · exact h
  · exact List.mem_cons_of_mem _ h

lemma insertDir_of_mem (ds : List FsPath) (q : FsPath) (h : q ∈ ds) :
    insertDir ds q = ds := by
  unfold insertDir; simp [h]

lemma mem_foldl_insertDir_of_mem (l : List FsPath) :
    ∀ ds r, r ∈ ds → r ∈ l.foldl insertDir ds := by
  induction l with
  | nil => intro ds r h; exact h
  | cons q rest ih =>
    intro ds r h
    exact ih _ _ (mem_insertDir_of_mem ds q r h)

lemma mem_foldl_insertDir_of_mem_list (l : List FsPath) :
    ∀ ds q, q ∈ l → q ∈ l.foldl insertDir ds := by
  induction l with
  | nil => intro _ _ h; cases h
  | cons p rest ih =>
    intro ds q h
    cases List.mem_cons.mp h with
    | inl he =>
      subst he
      exact mem_foldl_insertDir_of_mem rest _ q (mem_insertDir_self ds q)
    | inr hm => exact ih _ _ hm

lemma foldl_insertDir_of_all_mem (l : List FsPath) :
    ∀ ds, (∀ q ∈ l, q ∈ ds) → l.foldl insertDir ds = ds := by
  induction l with
  | nil => intro _ _; rfl
  | cons p rest ih =>
    intro ds h
    have hp : p ∈ ds := h p (List.mem_cons_self _ _)
    rw [List.foldl_cons, insertDir_of_mem ds p hp]
    exact ih ds fun q hq => h q (List.mem_cons_of_mem _ hq)

/-- With `exist_ok := true`, `mkdir` never raises: it returns the directory
set extended with the path and its missing ancestors. -/
lemma pathMkdir_true_eq (ds : List FsPath) (p : FsPath) :
    pathMkdir ds p true = .ok (insertDir ((parentsOf p).foldl insertDir ds) p) := by
  simp only [pathMkdir, insertDir]
  split <;> rfl

/-! ### Claims C4, C6, C8, C9 about the figure tool -/

/-- C4: given a nonexistent PDF path (and well-parsed arguments), the figure
tool prints the not-found message, exits with status 1, leaves the
filesystem untouched — no directory creation, no file writes — and the
outcome does not depend on what rendering would have produced. -/
theorem figure_missing_pdf_no_writes (fs : FS) (pdf : String) (out : FsPath)
    (dpiArg : Option Int) (fmtArg : Option String) (dpi : Int) (fmt : String)
    (hparse : parseFigureArgs dpiArg fmtArg = .ok (dpi, fmt))
    (render : Except String (List String)) :
    figureToolMain fs pdf out dpiArg fmtArg false render =
      { stdoutLines := ["Error: PDF file not found: " ++ pdf], stderrLines := [],
        exitCode := 1, fs := fs } := by
  simp [figureToolMain, hparse]

/-- C4, witness: the missing-PDF theorem applied to a concrete invocation
with default arguments and a rendering that would have succeeded. -/
theorem figure_missing_pdf_no_writes_witness :
    figureToolMain ⟨[], []⟩ "gone.pdf" ["figs"] none none false (.ok ["img1"]) =
      { stdoutLines := ["Error: PDF file not found: " ++ "gone.pdf"], stderrLines := [],
        exitCode := 1, fs := ⟨[], []⟩ } :=
  figure_missing_pdf_no_writes ⟨[], []⟩ "gone.pdf" ["figs"] none none 300 "png"
    rfl (.ok ["img1"])

/-- C6: a `--fmt` value outside the three choices is rejected by the
argument parser with exit status 2 (non-zero), the filesystem untouched and
nothing on standard output, independently of the PDF and of rendering; when
the options are omitted, `--dpi` parses to 300 and `--fmt` to `png`. -/
theorem figure_invalid_fmt_rejected (fs : FS) (pdf : String) (out : FsPath)
    (dpiArg : Option Int) (f : String) (h : f ∉ fmtChoices)
    (pdfExists : Bool) (render : Except String (List String)) :
    figureToolMain fs pdf out dpiArg (some f) pdfExists render =
      { stdoutLines := [],
        stderrLines := ["usage: extract_figures_from_pdf.py [-h] --pdf PDF --output OUTPUT [--dpi DPI] [--fmt fmt-choice]",
                        "extract_figures_from_pdf.py: error: argument --fmt: invalid choice"],
        exitCode := 2, fs := fs } ∧
    parseFigureArgs none none = .ok (300, "png") ∧
    (∀ d : Int, parseFigureArgs (some d) none = .ok (d, "png")) := by
  refine ⟨?_, rfl, fun d => rfl⟩
  simp [figureToolMain, parseFigureArgs, h]

/-- C6, witness: the invalid-format theorem applied to `--fmt xyz`. -/
theorem figure_invalid_fmt_rejected_witness :
    figureToolMain ⟨[], []⟩ "a.pdf" ["figs"] none (some "xyz") true (.ok []) =
      { stdoutLines := [],
        stderrLines := ["usage: extract_figures_from_pdf.py [-h] --pdf PDF --output OUTPUT [--dpi DPI] [--fmt fmt-choice]",
                        "extract_figures_from_pdf.py: error: argument --fmt: invalid choice"],
        exitCode := 2, fs := ⟨[], []⟩ } ∧
    parseFigureArgs none none = .ok (300, "png") ∧
    (∀ d : Int, parseFigureArgs (some d) none = .ok (d, "png")) :=
  figure_invalid_fmt_rejected ⟨[], []⟩ "a.pdf" ["figs"] none "xyz" (by decide) true (.ok [])

/-- C8: both error diagnostics of the figure tool — the not-found message
and the extraction-failure block with its dependency reminder — go to
standard output; the error stream stays empty. -/
theorem figure_errors_on_stdout (fs : FS) (pdf : String) (out : FsPath)
    (dpiArg : Option Int) (fmtArg : Option String) (dpi : Int) (fmt : String)
    (hparse : parseFigureArgs dpiArg fmtArg = .ok (dpi, fmt))
    (render : Except String (List String)) (e : String) :
    ((figureToolMain fs pdf out dpiArg fmtArg false render).stderrLines = [] ∧
      ("Error: PDF file not found: " ++ pdf) ∈
        (figureToolMain fs pdf out dpiArg fmtArg false render).stdoutLines) ∧
    ((figureToolMain fs pdf out dpiArg fmtArg true (.error e)).stderrLines = [] ∧
      ("Error: " ++ e) ∈
        (figureToolMain fs pdf out dpiArg fmtArg true (.error e)).stdoutLines ∧
      "  pip install pdf2image pillow" ∈
        (figureToolMain fs pdf out dpiArg fmtArg true (.error e)).stdoutLines ∧
      "  brew install poppler  # macOS only" ∈
        (figureToolMain fs pdf out dpiArg fmtArg true (.error e)).stdoutLines) := by
  constructor
  · simp [figureToolMain, hparse]
  · simp [figureToolMain, hparse, extract_figuresRun, pathMkdir_true_eq]

/-- C8, witness: the stdout-diagnostics theorem applied to a concrete
invocation whose rendering raises. -/
theorem figure_errors_on_stdout_witness :
    ((figureToolMain ⟨[], []⟩ "a.pdf" ["figs"] none none false (.error "boom")).stderrLines = [] ∧
      ("Error: PDF file not found: " ++ "a.pdf") ∈
        (figureToolMain ⟨[], []⟩ "a.pdf" ["figs"] none none false (.error "boom")).stdoutLines) ∧
    ((figureToolMain ⟨[], []⟩ "a.pdf" ["figs"] none none true (.error "boom")).stderrLines = [] ∧
      ("Error: " ++ "boom") ∈
        (figureToolMain ⟨[], []⟩ "a.pdf" ["figs"] none none true (.error "boom")).stdoutLines ∧
      "  pip install pdf2image pillow" ∈
        (figureToolMain ⟨[], []⟩ "a.pdf" ["figs"] none none true (.error "boom")).stdoutLines ∧
      "  brew install poppler  # macOS only" ∈
        (figureToolMain ⟨[], []⟩ "a.pdf" ["figs"] none none true (.error "boom")).stdoutLines) :=
  figure_errors_on_stdout ⟨[], []⟩ "a.pdf" ["figs"] none none 300 "png" rfl
    (.error "boom") "boom"

/-- C9: when the PDF exists but `convert_from_path` raises, the figure tool
exits with status 1 having written no page image files (the files are
untouched), while the output directory and its missing ancestors have
already been created by the time of the failure and remain present. -/
theorem figure_render_failure_keeps_dir (fs : FS) (pdf : String) (out : FsPath)
    (dpiArg : Option Int) (fmtArg : Option String) (dpi : Int) (fmt : String) (e : String)
    (hparse : parseFigureArgs dpiArg fmtArg = .ok (dpi, fmt)) :
    (figureToolMain fs pdf out dpiArg fmtArg true (.error e)).exitCode = 1 ∧
    (figureToolMain fs pdf out dpiArg fmtArg true (.error e)).fs.files = fs.files ∧
    out ∈ (figureToolMain fs pdf out dpiArg fmtArg true (.error e)).fs.dirs ∧
    (∀ q ∈ parentsOf out, q ∈ (figureToolMain fs pdf out dpiArg fmtArg true (.error e)).fs.dirs) ∧
    (∀ d ∈ fs.dirs, d ∈ (figureToolMain fs pdf out dpiArg fmtArg true (.error e)).fs.dirs) := by
  have hm : figureToolMain fs pdf out dpiArg fmtArg true (.error e) =
      { stdoutLines := ["Extracting figures from: " ++ pdf,
                        "Output directory: " ++ pathString out,
                        "Resolution: " ++ toString dpi ++ " DPI", ""] ++
          ["", "Error: " ++ e, "",
           "Make sure you have installed dependencies:",
           "  pip install pdf2image pillow",
           "  brew install poppler  # macOS only"],
        stderrLines := [], exitCode := 1,
        fs := { fs with dirs := insertDir ((parentsOf out).foldl insertDir fs.dirs) out } } := by
    simp [figureToolMain, hparse, extract_figuresRun, pathMkdir_true_eq]
  rw [hm]
  exact ⟨rfl, rfl, mem_insertDir_self _ _,
    fun q hq => mem_insertDir_of_mem _ _ _ (mem_foldl_insertDir_of_mem_list _ _ _ hq),
    fun d hd => mem_insertDir_of_mem _ _ _ (mem_foldl_insertDir_of_mem _ _ _ hd)⟩

/-- C9, witness: the render-failure theorem at a concrete invocation with a
nested output directory on an empty filesystem. -/
theorem figure_render_failure_keeps_dir_witness :
    (figureToolMain ⟨[], []⟩ "a.pdf" ["public", "figs"] none none true (.error "bad pdf")).exitCode = 1 ∧
    (figureToolMain ⟨[], []⟩ "a.pdf" ["public", "figs"] none none true (.error "bad pdf")).fs.files = [] ∧
    ["public", "figs"] ∈ (figureToolMain ⟨[], []⟩ "a.pdf" ["public", "figs"] none none true (.error "bad pdf")).fs.dirs ∧
    (∀ q ∈ parentsOf ["public", "figs"],
      q ∈ (figureToolMain ⟨[], []⟩ "a.pdf" ["public", "figs"] none none true (.error "bad pdf")).fs.dirs) ∧
    (∀ d ∈ ([] : List FsPath),
      d ∈ (figureToolMain ⟨[], []⟩ "a.pdf" ["public", "figs"] none none true (.error "bad pdf")).fs.dirs) :=
  figure_render_failure_keeps_dir ⟨[], []⟩ "a.pdf" ["public", "figs"] none none 300 "png"
    "bad pdf" rfl

/-! ### Lexical order of the page filenames -/

lemma digitChar_lt_digitChar : ∀ b < 10, ∀ a < b, Nat.digitChar a < Nat.digitChar b := by
  decide

lemma list_lex_append_left (p : List Char) :
    ∀ as bs : List Char, List.Lex (· < ·) as bs → List.Lex (· < ·) (p ++ as) (p ++ bs) := by
  induction p with
  | nil => intro as bs h; exact h
  | cons c cs ih =>
    intro as bs h
    exact List.Lex.cons (ih as bs h)

lemma list_lex_three_append {a1 a2 a3 b1 b2 b3 : Char} (r s : List Char)
    (h : List.Lex (· < ·) [a1, a2, a3] [b1, b2, b3]) :
    List.Lex (· < ·) (a1 :: a2 :: a3 :: r) (b1 :: b2 :: b3 :: s) := by
  cases h with
  | rel h1 => exact .rel h1
  | cons h1 =>
    cases h1 with
    | rel h2 => exact .cons (.rel h2)
    | cons h2 =>
      cases h2 with
      | rel h3 => exact .cons (.cons (.rel h3))
      | cons h3 => cases h3

lemma digits3_lt (i j : Nat) (hij : i < j) (hj : j ≤ 999) :
    List.Lex (· < ·)
      [Nat.digitChar (i / 100), Nat.digitChar (i / 10 % 10), Nat.digitChar (i % 10)]
      [Nat.digitChar (j / 100), Nat.digitChar (j / 10 % 10), Nat.digitChar (j % 10)] := by
  rcases Nat.lt_trichotomy (i / 100) (j / 100) with h1 | h1 | h1
  · exact .rel (digitChar_lt_digitChar _ (by omega) _ h1)
  · rw [h1]
    rcases Nat.lt_trichotomy (i / 10 % 10) (j / 10 % 10) with h2 | h2 | h2
    · exact .cons (.rel (digitChar_lt_digitChar _ (by omega) _ h2))
    · rw [h2]
      have h3 : i % 10 < j % 10 := by omega
      exact .cons (.cons (.rel (digitChar_lt_digitChar _ (by omega) _ h3)))
    · exfalso; omega
  · exfalso; omega

/-- Page filenames with indices up to 999 are strictly increasing in the
lexicographic string order. -/
lemma pageFileName_lt (fmt : String) (i j : Nat) (hij : i < j) (hj : j ≤ 999) :
    pageFileName i fmt < pageFileName j fmt := by
  rw [String.lt_iff_toList_lt]
  simp only [String.toList]
  have di := py03d_eq_digits i (by omega)
  have dj := py03d_eq_digits j (by omega)
  simp only [pageFileName, String.data_append, di, dj, List.append_assoc]
  show List.Lex (· < ·) _ _
  apply list_lex_append_left
  simp only [List.cons_append, List.nil_append]
  exact list_lex_three_append _ _ (digits3_lt i j hij hj)

/-- The filenames produced by the saving loop are `pageFileName` at
consecutive indices starting from the initial counter. -/
lemma saveLoop_names (out : FsPath) (fmt : String) :
    ∀ (images : List String) (fs : FS) (i : Nat),
      (saveLoop out fmt fs images i).2.2 =
        (List.range images.length).map (fun k => pageFileName (i + k) fmt) := by
  intro images
  induction images with
  | nil => intro fs i; rfl
  | cons img rest ih =>
    intro fs i
    simp only [saveLoop, ih, List.length_cons, List.range_succ_eq_map, List.map_cons,
      List.map_map]
    norm_num
    intro a ha
    congr 1
    omega

/-- C2 (amended): for a PDF rendered to `N` page images, the figure tool
performs exactly `N` file writes, the `k`-th (0-based) under the name
`pageFileName (k + 1) fmt` — `page_` followed by the 1-based page index
zero-padded to a minimum of 3 digits, a dot and the format — and, provided
`N ≤ 999`, the filenames in page order are strictly increasing in the
lexicographic string order, so lexical sort order equals page order. -/
theorem figure_saved_filenames (fs : FS) (out : FsPath) (fmt : String)
    (images : List String) :
    (saveLoop out fmt fs images 1).2.2.length = images.length ∧
    (∀ k, k < images.length →
      (saveLoop out fmt fs images 1).2.2.getD k "" = pageFileName (k + 1) fmt) ∧
    (images.length ≤ 999 →
      List.Pairwise (fun a b => a < b) (saveLoop out fmt fs images 1).2.2) := by
  rw [saveLoop_names out fmt images fs 1]
  refine ⟨by simp, ?_, ?_⟩
  · intro k hk
    rw [List.getD_eq_getElem?_getD, List.getElem?_map, List.getElem?_range hk]
    simp [Nat.add_comm]
  · intro hlen
    rw [List.pairwise_map]
    refine (List.pairwise_lt_range _).imp_of_mem ?_
    intro a b ha hb hab
    have hb' : b < images.length := List.mem_range.mp hb
    exact pageFileName_lt fmt (1 + a) (1 + b) (by omega) (by omega)

/-- C2, witness: the filename theorem applied to a concrete three-page
rendering, with the first filename evaluated. -/
theorem figure_saved_filenames_witness :
    (saveLoop ["figs"] "png" ⟨[], []⟩ ["a", "b", "c"] 1).2.2.length = 3 ∧
    (saveLoop ["figs"] "png" ⟨[], []⟩ ["a", "b", "c"] 1).2.2.getD 0 "" = "page_001.png" ∧
    List.Pairwise (fun a b => a < b) (saveLoop ["figs"] "png" ⟨[], []⟩ ["a", "b", "c"] 1).2.2 := by
  have h := figure_saved_filenames ⟨[], []⟩ ["figs"] "png" ["a", "b", "c"]
  refine ⟨h.1, ?_, h.2.2 (by decide)⟩
  rw [h.2.1 0 (by decide)]
  decide

/-- C2, counterexample: on a 1000-page rendering the filename written for
page 1000 (position 999) sorts lexicographically strictly before the one
written for page 999 (position 998) — `page_1000.png` precedes
`page_999.png` — so lexical filename order does not equal page order for
every page count. -/
theorem figure_filenames_lexical_order_fails_at_1000 :
    (saveLoop ["figs"] "png" ⟨[], []⟩ (List.replicate 1000 "img") 1).2.2.getD 999 "" <
      (saveLoop ["figs"] "png" ⟨[], []⟩ (List.replicate 1000 "img") 1).2.2.getD 998 "" := by
  rw [saveLoop_names]
  simp only [List.length_replicate]
  rw [List.getD_eq_getElem?_getD, List.getElem?_map, List.getElem?_range (by norm_num),
    List.getD_eq_getElem?_getD, List.getElem?_map, List.getElem?_range (by norm_num)]
  show pageFileName (1 + 999) "png" < pageFileName (1 + 998) "png"
  rw [String.lt_iff_toList_lt]
  decide

/-! ### Overwrite and re-run lemmas -/

lemma lookupFile_upsertFile_self :
    ∀ (fls : List (FsPath × String)) (k : FsPath) (v : String),
      lookupFile (upsertFile fls k v) k = some v := by
  intro fls
  induction fls with
  | nil => intro k v; simp [upsertFile, lookupFile]
  | cons p rest ih =>
    intro k v
    obtain ⟨ek, ev⟩ := p
    by_cases h : ek = k <;> simp [upsertFile, lookupFile, h, ih]

lemma lookupFile_upsertFile_other :
    ∀ (fls : List (FsPath × String)) (k : FsPath) (v : String) (q : FsPath), q ≠ k →
      lookupFile (upsertFile fls k v) q = lookupFile fls q := by
  intro fls
  induction fls with
  | nil =>
    intro k v q hq
    simp [upsertFile, lookupFile, Ne.symm hq]
  | cons p rest ih =>
    intro k v q hq
    obtain ⟨ek, ev⟩ := p
    by_cases h : ek = k
    · subst h
      simp [upsertFile, lookupFile, Ne.symm hq]
    · simp only [upsertFile, lookupFile, if_neg h]
      by_cases h2 : ek = q
      · simp [lookupFile, h2]
      · simp [lookupFile, h2, ih _ _ _ hq]

/-- The content most recently written for the path `k` by the saving loop
over `images` with 1-based counter starting at `i` (`none` when the loop
never writes to `k`). -/
def lastWrite (out : FsPath) (fmt : String) : List String → Nat → FsPath → Option String
  | [], _, _ => none
  | img :: rest, i, k =>
    match lastWrite out fmt rest (i + 1) k with
    | some v => some v
    | none => if out ++ [pageFileName i fmt] = k then some img else none

/-- The saving loop never touches the directory set. -/
lemma saveLoop_dirs (out : FsPath) (fmt : String) :
    ∀ (images : List String) (fs : FS) (i : Nat),
      (saveLoop out fmt fs images i).1.dirs = fs.dirs := by
  intro images
  induction images with
  | nil => intro fs i; rfl
  | cons img rest ih => intro fs i; simp [saveLoop, ih]

/-- After the saving loop, the file at any path is the last content the loop
wrote there, or the original content when the loop never wrote there. -/
lemma lookupFile_saveLoop (out : FsPath) (fmt : String) :
    ∀ (images : List String) (fs : FS) (i : Nat) (k : FsPath),
      lookupFile (saveLoop out fmt fs images i).1.files k =
        match lastWrite out fmt images i k with
        | some v => some v
        | none => lookupFile fs.files k := by
  intro images
  induction images with
  | nil => intro fs i k; rfl
  | cons img rest ih =>
    intro fs i k
    simp only [saveLoop, lastWrite]
    rw [ih]
    cases hlw : lastWrite out fmt rest (i + 1) k with
    | some v => rfl
    | none =>
      by_cases hk : out ++ [pageFileName i fmt] = k
      · rw [if_pos hk, ← hk]
        exact lookupFile_upsertFile_self _ _ _
      · rw [if_neg hk]
        exact lookupFile_upsertFile_other _ _ _ _ (fun h => hk h.symm)

/-- C5: re-running the figure extraction with the same output directory
succeeds.  Both runs finish without an exception; the second run leaves the
directory set exactly as the first run left it (re-creation with
`exist_ok=True` does not fail on an existing directory); every file reads
the same after the second run as after the first (same-named page files are
overwritten, without error); and when the output directory and its
ancestors already exist, the first run creates no directory at all. -/
theorem figure_rerun_idempotent (fs : FS) (pdf : String) (out : FsPath)
    (images : List String) (dpi : Int) (fmt : String) :
    (extract_figuresRun fs pdf out (.ok images) dpi fmt).2.2 = none ∧
    (extract_figuresRun (extract_figuresRun fs pdf out (.ok images) dpi fmt).1
        pdf out (.ok images) dpi fmt).2.2 = none ∧
    (extract_figuresRun (extract_figuresRun fs pdf out (.ok images) dpi fmt).1
        pdf out (.ok images) dpi fmt).1.dirs =
      (extract_figuresRun fs pdf out (.ok images) dpi fmt).1.dirs ∧
    (∀ k, lookupFile (extract_figuresRun (extract_figuresRun fs pdf out (.ok images) dpi fmt).1
        pdf out (.ok images) dpi fmt).1.files k =
      lookupFile (extract_figuresRun fs pdf out (.ok images) dpi fmt).1.files k) ∧
    ((out ∈ fs.dirs ∧ ∀ q ∈ parentsOf out, q ∈ fs.dirs) →
      (extract_figuresRun fs pdf out (.ok images) dpi fmt).1.dirs = fs.dirs) := by
  have hrun : ∀ g : FS, (extract_figuresRun g pdf out (.ok images) dpi fmt).2.2 = none ∧
      (extract_figuresRun g pdf out (.ok images) dpi fmt).1 =
        (saveLoop out fmt
          { g with dirs := insertDir ((parentsOf out).foldl insertDir g.dirs) out }
          images 1).1 := by
    intro g
    constructor <;> simp [extract_figuresRun, pathMkdir_true_eq]
  obtain ⟨he1, hf1⟩ := hrun fs
  obtain ⟨he2, hf2⟩ := hrun (extract_figuresRun fs pdf out (.ok images) dpi fmt).1
  have hd1 : (extract_figuresRun fs pdf out (.ok images) dpi fmt).1.dirs =
      insertDir ((parentsOf out).foldl insertDir fs.dirs) out := by
    rw [hf1, saveLoop_dirs]
  have hout : out ∈ (extract_figuresRun fs pdf out (.ok images) dpi fmt).1.dirs := by
    rw [hd1]; exact mem_insertDir_self _ _
  have hpar : ∀ q ∈ parentsOf out,
      q ∈ (extract_figuresRun fs pdf out (.ok images) dpi fmt).1.dirs := by
    intro q hq
    rw [hd1]
    exact mem_insertDir_of_mem _ _ _ (mem_foldl_insertDir_of_mem_list _ _ _ hq)
  have hlook1 : ∀ k, lookupFile (extract_figuresRun fs pdf out (.ok images) dpi fmt).1.files k =
      match lastWrite out fmt images 1 k with
      | some v => some v
      | none => lookupFile fs.files k := by
    intro k
    rw [hf1, lookupFile_saveLoop]
  have hlook2 : ∀ k, lookupFile (extract_figuresRun
        (extract_figuresRun fs pdf out (.ok images) dpi fmt).1
        pdf out (.ok images) dpi fmt).1.files k =
      match lastWrite out fmt images 1 k with
      | some v => some v
      | none => lookupFile (extract_figuresRun fs pdf out (.ok images) dpi fmt).1.files k := by
    intro k
    rw [hf2, lookupFile_saveLoop]
  refine ⟨he1, he2, ?_, ?_, ?_⟩
  · rw [hf2, saveLoop_dirs]
    show insertDir ((parentsOf out).foldl insertDir _) out = _
    rw [foldl_insertDir_of_all_mem _ _ hpar]
    exact insertDir_of_mem _ _ hout
  · intro k
    rw [hlook2 k]
    cases hlw : lastWrite out fmt images 1 k with
    | some v => rw [hlook1 k, hlw]
    | none => rfl
  · rintro ⟨ho, hp⟩
    rw [hd1, foldl_insertDir_of_all_mem _ _ hp]
    exact insertDir_of_mem _ _ ho

/-- C5, witness: the re-run theorem on a filesystem where the output
directory already exists — both runs succeed and no directory is created. -/
theorem figure_rerun_idempotent_witness :
    (extract_figuresRun ⟨[["figs"]], []⟩ "a.pdf" ["figs"] (.ok ["i1", "i2"]) 300 "png").2.2 = none ∧
    (extract_figuresRun (extract_figuresRun ⟨[["figs"]], []⟩ "a.pdf" ["figs"] (.ok ["i1", "i2"]) 300 "png").1
        "a.pdf" ["figs"] (.ok ["i1", "i2"]) 300 "png").2.2 = none ∧
    (extract_figuresRun ⟨[["figs"]], []⟩ "a.pdf" ["figs"] (.ok ["i1", "i2"]) 300 "png").1.dirs = [["figs"]] :=
  have h := figure_rerun_idempotent ⟨[["figs"]], []⟩ "a.pdf" ["figs"] ["i1", "i2"] 300 "png"
  ⟨h.1, h.2.1, h.2.2.2.2 (by decide)⟩
